import Mathlib

/-!
Shallow embedding of `generate_files.py` (corrupt-file-simulator).

The program generates random files in batches using a thread pool.
We model:
  * the global alphanumeric charset (`string.ascii_letters + string.digits`),
  * the global numpy RandomState (`np.random.*`) as an explicit stream of
    natural-number draws threaded through every call (the source draws from
    the module-level `np.random` generator, so the state is global),
  * the filesystem as an explicit state (a list of directories and a list of
    path/content file pairs); OS-dependent facilities (`os.path.expanduser`
    for `~` paths, writability, `os.cpu_count`, `os.path.normpath`) are
    supplied by an environment record,
  * thread-pool execution (`executor.map`) as a sequentialized run of all
    submitted tasks whose per-task exceptions are captured in the outcome
    list and never re-raised (the source never consumes the map iterator).
-/

/-- `string.ascii_lowercase`. -/
def ascii_lowercase : String := "abcdefghijklmnopqrstuvwxyz"

/-- `string.ascii_uppercase`. -/
def ascii_uppercase : String := "ABCDEFGHIJKLMNOPQRSTUVWXYZ"

/-- `string.ascii_letters = ascii_lowercase + ascii_uppercase`. -/
def ascii_letters : String := ascii_lowercase ++ ascii_uppercase

/-- `string.digits`. -/
def string_digits : String := "0123456789"

/-- Source line 15: `charset = string.ascii_letters + string.digits`. -/
def charset : String := ascii_letters ++ string_digits

/-- `list(charset)` as used by every `np.random.choice(list(charset), ...)` call. -/
def charsetList : List Char := charset.toList

/-- The global numpy RandomState: a fixed stream of raw draws plus a cursor
recording how many draws have been consumed so far.  Every call to
`np.random.choice` in the source reads and advances this single state. -/
structure NpRng where
  seq : Nat → Nat
  pos : Nat

/-- Consume one raw draw from the global RandomState. -/
def drawNat (r : NpRng) : Nat × NpRng :=
  (r.seq r.pos, { r with pos := r.pos + 1 })

/-- `np.random.choice(xs, size=n)`: draw `n` elements of `xs`, each selected
by the next raw draw reduced modulo `xs.length` (the distribution is
irrelevant to the claims; only membership and length matter). -/
def npChoiceChars (xs : List Char) : Nat → NpRng → List Char × NpRng
  | 0, r => ([], r)
  | Nat.succ n, r =>
    let d := drawNat r
    let rest := npChoiceChars xs n d.2
    (xs.getD (d.1 % xs.length) 'a' :: rest.1, rest.2)

/-- `np.random.choice(xs)` for a list of strings (extension choice). -/
def npChoiceStr (xs : List String) (r : NpRng) : String × NpRng :=
  let d := drawNat r
  (xs.getD (d.1 % xs.length) "", d.2)

/-- Filesystem state: the set of existing directories and the existing
files as path/content pairs. -/
structure FSState where
  dirs : List String
  files : List (String × String)
deriving DecidableEq

/-- `os.path.isfile`. -/
def isfile_fs (fs : FSState) (p : String) : Bool :=
  fs.files.any (fun q => q.1 == p)

/-- `os.path.isdir`. -/
def isdir_fs (fs : FSState) (p : String) : Bool :=
  fs.dirs.contains p

/-- `os.path.exists`. -/
def exists_fs (fs : FSState) (p : String) : Bool :=
  isdir_fs fs p || isfile_fs fs p

/-- Does the string start with a `/` (posixpath separator test)? -/
def startsWithSlash (s : String) : Bool :=
  match s.toList with
  | [] => false
  | c :: _ => c == '/'

/-- Does the string end with a `/`? -/
def endsWithSlash (s : String) : Bool :=
  match s.toList.reverse with
  | [] => false
  | c :: _ => c == '/'

/-- `posixpath.join(a, b)`: if `b` is absolute it replaces `a`; otherwise the
two are joined with a separator unless `a` is empty or already ends in one. -/
def pathJoin (a b : String) : String :=
  if startsWithSlash b then b
  else if a = "" || endsWithSlash a then a ++ b
  else a ++ "/" ++ b

/-- `rfind('/') + 1` on the character list (0 when there is no slash):
the split point used by `posixpath.split`/`posixpath.dirname`. -/
def rfindSlashSucc (cs : List Char) : Nat :=
  match cs.reverse.findIdx? (fun c => c == '/') with
  | some k => cs.length - k
  | none => 0

/-- Strip trailing `/` characters (`str.rstrip('/')`). -/
def rstripSlash (cs : List Char) : List Char :=
  (cs.reverse.dropWhile (fun c => c == '/')).reverse

/-- `posixpath.dirname(p)`: everything up to the final slash, with trailing
slashes stripped unless the head is all slashes. -/
def dirname (p : String) : String :=
  let cs := p.toList
  let h := cs.take (rfindSlashSucc cs)
  String.mk (if h.isEmpty || h.all (fun c => c == '/') then h else rstripSlash h)

/-- The chain `p, dirname p, dirname (dirname p), ...` (fuel-bounded; stops
at the empty path or a `dirname` fixpoint such as `/`).  These are the
directories `os.makedirs` would create for `p`. -/
def pathChainFuel : Nat → String → List String
  | 0, _ => []
  | Nat.succ n, p =>
    if p = "" then []
    else p :: (if dirname p = p then [] else pathChainFuel n (dirname p))

/-- The directory chain of a path (enough fuel for every proper chain). -/
def pathChain (p : String) : List String :=
  pathChainFuel (p.length + 1) p

/-- `os.makedirs(name, exist_ok=...)`, from its documented semantics:
recursively create `name` and its missing ancestors; if `name` already
exists as a directory, raise `FileExistsError` unless `exist_ok` is true;
if `name` or an ancestor exists as a regular file, the creation fails. -/
def makedirs (fs : FSState) (name : String) (exist_ok : Bool) : Except String FSState :=
  if isdir_fs fs name then
    (if exist_ok then Except.ok fs else Except.error "FileExistsError")
  else if (pathChain name).any (fun a => isfile_fs fs a) then
    Except.error "FileExistsError"
  else
    Except.ok { fs with dirs := ((pathChain name).filter (fun a => !isdir_fs fs a)) ++ fs.dirs }

/-- `open(path, 'w')` followed by `write`: fails if the path is an existing
directory, otherwise creates or overwrites the file. -/
def writeFile (fs : FSState) (p s : String) : Except String FSState :=
  if isdir_fs fs p then Except.error "IsADirectoryError"
  else Except.ok { fs with files := (p, s) :: fs.files.filter (fun q => q.1 ≠ p) }

-- Basic lemmas about the primitives.

theorem npChoiceChars_length (xs : List Char) :
    ∀ (n : Nat) (r : NpRng), (npChoiceChars xs n r).1.length = n := by
  intro n
  induction n with
  | zero => intro r; rfl
  | succ m ih =>
    intro r
    simp [npChoiceChars, ih]

theorem npChoiceChars_mem (xs : List Char) (hxs : xs ≠ []) :
    ∀ (n : Nat) (r : NpRng) (c : Char), c ∈ (npChoiceChars xs n r).1 → c ∈ xs := by
  intro n
  induction n with
  | zero => intro r c hc; simp [npChoiceChars] at hc
  | succ m ih =>
    intro r c hc
    simp only [npChoiceChars, List.mem_cons] at hc
    rcases hc with hc | hc
    · subst hc
      rw [List.getD_eq_getElem xs 'a' (Nat.mod_lt _ (List.length_pos.mpr hxs))]
      exact List.getElem_mem _
    · exact ih _ _ hc

theorem writeFile_dirs (fs : FSState) (p s : String) (fs2 : FSState)
    (h : writeFile fs p s = Except.ok fs2) : fs2.dirs = fs.dirs := by
  unfold writeFile at h
  by_cases hd : isdir_fs fs p
  · simp [hd] at h
  · simp [hd] at h
    subst h
    rfl

/-- The OS environment: `os.path.expanduser` for `~`-prefixed paths, the
writability predicate behind `os.access(p, os.W_OK)`, `os.cpu_count()`
(which may be unavailable), the platform name, and `os.path.normpath`
(whose behavior is platform-dependent). -/
structure OsEnv where
  phomeexpand : String → String
  writable : String → Bool
  cpu_count : Option Nat
  os_type : String
  pnormpath : String → String

/-- Does the string start with `~`? -/
def startsWithTilde (s : String) : Bool :=
  match s.toList with
  | [] => false
  | c :: _ => c == '~'

/-- `os.path.expanduser(p)`: paths not starting with `~` are returned
unchanged; `~` expansion itself is environment-dependent. -/
def expanduser (env : OsEnv) (s : String) : String :=
  if startsWithTilde s then env.phomeexpand s else s

theorem self_mem_pathChain (p : String) (hp : p ≠ "") : p ∈ pathChain p := by
  unfold pathChain
  unfold pathChainFuel
  simp [hp]

/-- Source line 36: `os.makedirs(output_dir, exist_ok=True)` — the directory
creation step performed by the file synthesizer. -/
def ensureOutputDir (fs : FSState) (output_dir : String) : Except String FSState :=
  makedirs fs output_dir true

theorem makedirs_exist_ok_of_isdir (fs : FSState) (name : String)
    (h : isdir_fs fs name = true) : makedirs fs name true = Except.ok fs := by
  unfold makedirs
  simp [h]

theorem makedirs_ok_isdir (fs : FSState) (name : String) (ok : Bool) (fs2 : FSState)
    (h : makedirs fs name ok = Except.ok fs2) :
    isdir_fs fs2 name = true ∨ name = "" := by
  unfold makedirs at h
  by_cases h1 : isdir_fs fs name
  · left
    by_cases hok : ok <;> simp [h1, hok] at h
    · subst h; exact h1
  · by_cases h2 : (pathChain name).any (fun a => isfile_fs fs a)
    · simp [h1, h2] at h
    · simp [h1, h2] at h
      by_cases hp : name = ""
      · right; exact hp
      · left
        subst h
        unfold isdir_fs
        apply List.elem_eq_true_of_mem
        apply List.mem_append_left
        simp only [List.mem_filter]
        exact ⟨self_mem_pathChain name hp, by simp [isdir_fs] at h1; simp [h1]⟩

theorem makedirs_ok_files (fs : FSState) (name : String) (ok : Bool) (fs2 : FSState)
    (h : makedirs fs name ok = Except.ok fs2) : fs2.files = fs.files := by
  unfold makedirs at h
  by_cases h1 : isdir_fs fs name
  · by_cases hok : ok <;> simp [h1, hok] at h
    · subst h; rfl
  · by_cases h2 : (pathChain name).any (fun a => isfile_fs fs a)
    · simp [h1, h2] at h
    · simp [h1, h2] at h
      subst h; rfl

theorem makedirs_ok_dirs_sub (fs : FSState) (name : String) (ok : Bool) (fs2 : FSState)
    (h : makedirs fs name ok = Except.ok fs2) : ∀ d ∈ fs.dirs, d ∈ fs2.dirs := by
  unfold makedirs at h
  by_cases h1 : isdir_fs fs name
  · by_cases hok : ok <;> simp [h1, hok] at h
    · subst h; intro d hd; exact hd
  · by_cases h2 : (pathChain name).any (fun a => isfile_fs fs a)
    · simp [h1, h2] at h
    · simp [h1, h2] at h
      subst h
      intro d hd
      simp only [List.mem_append]
      right; exact hd

/-- Python truthiness of `extensions_list and len(extensions_list) > 0`
(source line 26): `None` and the empty list are falsy. -/
def extListUsable : Option (List String) → Bool
  | some l => decide (0 < l.length)
  | none => false

/-- The extension chosen by `generate_file` (source lines 24-33): random
4 alphanumeric characters when `use_random_4_char_ext` is set, otherwise a
uniformly chosen member of a non-empty `extensions_list`, otherwise the
silent fallback to random 4 alphanumeric characters. -/
def chooseExtension (extensions_list : Option (List String))
    (use_random_4_char_ext : Bool) (rng : NpRng) : String × NpRng :=
  if use_random_4_char_ext then
    let e := npChoiceChars charsetList 4 rng
    (String.mk e.1, e.2)
  else if extListUsable extensions_list then
    npChoiceStr (extensions_list.getD []) rng
  else
    let e := npChoiceChars charsetList 4 rng
    (String.mk e.1, e.2)

/-- The observable result of one successful `generate_file` call. -/
structure GenFileResult where
  random_name : String
  extension : String
  file_path : String
  random_text : String
  /-- console messages emitted by the call (the fallback warning at source
  line 32 is commented out, so the live code emits none). -/
  warnings : List String
deriving DecidableEq

/-- `generate_file` (source lines 21-44).  The first argument is the unused
placeholder from `range()`; `delay_s` only sleeps and has no observable
effect; `write_fails` models an OS-level I/O failure of the `open`/`write`
step (disk full, permission), which the source lets propagate as an
exception.  Randomness comes from the global numpy state `rng`. -/
def generate_file (i : Nat) (output_dir : String) (name_len text_len : Nat)
    (delay_s : Nat) (extensions_list : Option (List String))
    (use_random_4_char_ext : Bool) (write_fails : Bool)
    (rng : NpRng) (fs : FSState) :
    Except String (GenFileResult × FSState) × NpRng :=
  let _ := i
  let _ := delay_s
  let nm := npChoiceChars charsetList name_len rng
  let random_name := String.mk nm.1
  let er := chooseExtension extensions_list use_random_4_char_ext nm.2
  let extension := er.1
  match ensureOutputDir fs output_dir with
  | Except.error e => (Except.error e, er.2)
  | Except.ok fs1 =>
    let file_path := pathJoin output_dir (random_name ++ "." ++ extension)
    let ct := npChoiceChars charsetList text_len er.2
    let random_text := String.mk ct.1
    if write_fails then (Except.error "IOError", ct.2)
    else
      match writeFile fs1 file_path random_text with
      | Except.error e => (Except.error e, ct.2)
      | Except.ok fs2 =>
        (Except.ok ({ random_name := random_name, extension := extension,
                      file_path := file_path, random_text := random_text,
                      warnings := [] }, fs2), ct.2)

/-- `os.cpu_count() or 4`: Python `or` replaces a falsy left operand
(`None` or `0`) with the right operand. -/
def pyOrDefault (c : Option Nat) (d : Nat) : Nat :=
  match c with
  | some n => if n = 0 then d else n
  | none => d

/-- Parameters shared by every task of one `generate_files` call
(closed over by `generate_file_and_update_progress`, source lines 54-61). -/
structure TaskParams where
  output_dir : String
  name_len : Nat
  text_len : Nat
  delay_s : Nat
  extensions_list : Option (List String)
  use_random_4_char_ext : Bool

/-- Sequentialized semantics of `executor.map(generate_file_and_update_progress,
range(num_f))` inside `with ThreadPoolExecutor(...)` (source lines 65-66):
every submitted task runs to completion; an exception raised by a task is
captured in its future (the outcome list) and — because the map iterator is
never consumed — is never re-raised; the `with` block joins all tasks.
`fails` is the per-task oracle for OS-level write failures. -/
def runTasks (p : TaskParams) (fails : Nat → Bool) :
    List Nat → NpRng → FSState → NpRng × FSState × List (Except String GenFileResult)
  | [], rng, fs => (rng, fs, [])
  | i :: rest, rng, fs =>
    let r := generate_file i p.output_dir p.name_len p.text_len p.delay_s
      p.extensions_list p.use_random_4_char_ext (fails i) rng fs
    match r.1 with
    | Except.ok (res, fs2) =>
      let t := runTasks p fails rest r.2 fs2
      (t.1, t.2.1, Except.ok res :: t.2.2)
    | Except.error e =>
      let t := runTasks p fails rest r.2 fs
      (t.1, t.2.1, Except.error e :: t.2.2)

/-- The observable result of one `generate_files` call. -/
structure DispatchResult where
  world_rng : NpRng
  world_fs : FSState
  outcomes : List (Except String GenFileResult)
  actual_num_workers : Nat

/-- `generate_files` (source lines 47-66): resolve the worker count (lines
48-51), then dispatch `num_f` independent `generate_file` tasks.  The
function always returns normally; individual task outcomes are recorded but
never re-raised. -/
def generate_files (num_f : Nat) (output_dir : String) (name_len text_len : Nat)
    (delay_s : Nat) (extensions_list : Option (List String))
    (use_random_4_char_ext : Bool) (num_workers : Option Nat)
    (cpu_count : Option Nat) (fails : Nat → Bool)
    (rng : NpRng) (fs : FSState) : DispatchResult :=
  let actual_num_workers :=
    match num_workers with
    | none => min 32 (pyOrDefault cpu_count 4 + 4)
    | some w => w
  let p : TaskParams :=
    { output_dir := output_dir, name_len := name_len, text_len := text_len,
      delay_s := delay_s, extensions_list := extensions_list,
      use_random_4_char_ext := use_random_4_char_ext }
  let t := runTasks p fails (List.range num_f) rng fs
  { world_rng := t.1, world_fs := t.2.1, outcomes := t.2.2,
    actual_num_workers := actual_num_workers }

/-- `is_path_valid` (source lines 69-98): an existing path must be a
writable directory; a non-existing path must have an existing, writable
parent directory (the current directory when `os.path.dirname` is empty). -/
def is_path_valid (env : OsEnv) (fs : FSState) (path_str : String) : Bool :=
  let expanded_path := expanduser env path_str
  if exists_fs fs expanded_path then
    if !isdir_fs fs expanded_path then false
    else if !env.writable expanded_path then false
    else true
  else
    let parent_dir0 := dirname expanded_path
    let parent_dir := if parent_dir0 = "" then "." else parent_dir0
    if !exists_fs fs parent_dir then false
    else if !isdir_fs fs parent_dir then false
    else if !env.writable parent_dir then false
    else true

/-- The observable result of one `main` call. -/
structure RunResult where
  /-- the `output_dir` argument `main` was invoked with. -/
  output_dir_arg : String
  /-- the successfully written files, in dispatch order, over all batches. -/
  written : List GenFileResult
  /-- `total_files = num_files_pb * num_b` (source line 141). -/
  reportedTotal : Nat
  final_rng : NpRng
  final_fs : FSState

/-- The successfully produced files of an outcome list. -/
def okOutcomes (l : List (Except String GenFileResult)) : List GenFileResult :=
  l.filterMap Except.toOption

/-- The batch loop of `main` (source lines 109-139): batches run strictly
sequentially, each dispatching one `generate_files` call.  `fails b i` is
the write-failure oracle for task `i` of batch `b`. -/
def batchLoop (num_files_pb : Nat) (expanded_dir : String) (name_l text_l : Nat)
    (op_delay_s : Nat) (file_extensions : Option (List String)) (use4 : Bool)
    (workers : Option Nat) (cpu : Option Nat) (fails : Nat → Nat → Bool) :
    List Nat → NpRng → FSState → NpRng × FSState × List (Except String GenFileResult)
  | [], rng, fs => (rng, fs, [])
  | b :: rest, rng, fs =>
    let d := generate_files num_files_pb expanded_dir name_l text_l op_delay_s
      file_extensions use4 workers cpu (fails b) rng fs
    let t := batchLoop num_files_pb expanded_dir name_l text_l op_delay_s
      file_extensions use4 workers cpu fails rest d.world_rng d.world_fs
    (t.1, t.2.1, d.outcomes ++ t.2.2)

/-- `main` (source lines 103-142, the effective definition): expand the
user directory, run `num_b` sequential batches of `num_files_pb` tasks
(the TUI branch differs only in progress display), and report
`total_files = num_files_pb * num_b` computed from the configuration alone
(source line 141) — never from the task outcomes. -/
def py_main (output_dir : String) (num_files_pb num_b name_l text_l : Nat)
    (file_extensions : Option (List String)) (workers : Option Nat)
    (op_delay_s : Nat) (use_tui : Bool) (use_random_4_char_ext_flag : Bool)
    (env : OsEnv) (fails : Nat → Nat → Bool) (rng : NpRng) (fs : FSState) :
    RunResult :=
  let _ := use_tui
  let expanded := expanduser env output_dir
  let t := batchLoop num_files_pb expanded name_l text_l op_delay_s
    file_extensions use_random_4_char_ext_flag workers env.cpu_count fails
    (List.range num_b) rng fs
  let total_files := num_files_pb * num_b
  { output_dir_arg := output_dir, written := okOutcomes t.2.2,
    reportedTotal := total_files, final_rng := t.1, final_fs := t.2.1 }

/-- Source line 16. -/
def DEFAULT_EXTENSIONS : List String := ["txt", "log", "data", "tmp", "out"]

/-- Source line 17. -/
def RANDOM_CHOICE_EXTENSIONS : List String :=
  ["txt", "log", "data", "tmp", "out", "bak", "doc", "pdf", "jpg", "png",
   "csv", "json", "xml", "html", "js", "css"]

/-- Parsed command-line arguments (source lines 147-166). -/
structure Args where
  output_dir : Option String
  num_files : Nat
  num_batches : Nat
  name_length : Nat
  text_length : Nat
  extensions : Option (List String)
  random_extensions : Bool
  workers : Option Nat
  delay : Nat

/-- Extension strategy resolution for CLI mode (source lines 169-181):
explicit `--extensions` wins (empty value list falls back to
`DEFAULT_EXTENSIONS` with a warning), then `--random-extensions`, else the
4-char random mode. -/
def cliExtPolicy (args : Args) : Option (List String) × Bool :=
  match args.extensions with
  | some l => if l.length = 0 then (some DEFAULT_EXTENSIONS, false) else (some l, false)
  | none =>
    if args.random_extensions then (some RANDOM_CHOICE_EXTENSIONS, false)
    else (none, true)

/-- CLI-mode detection (source line 184). -/
def is_cli_mode (args : Args) : Bool :=
  args.output_dir.isSome || args.extensions.isSome || args.random_extensions

/-- The observable result of the `__main__` entry: a `sys.exit` code if one
was raised, the completed run if `main` was reached, the surviving
filesystem, and (in TUI mode) the path the user's selection loop validated. -/
structure ScriptResult where
  exit_code : Option Nat
  run : Option RunResult
  final_fs : FSState
  tui_selected_dir : Option String

/-- The CLI branch of `__main__` (source lines 186-204): resolve the output
directory (defaulting with a warning when only extension flags were given),
validate it, `sys.exit(1)` on failure — before any generation work — and
otherwise call `main`. -/
def scriptCli (args : Args) (env : OsEnv) (fails : Nat → Nat → Bool)
    (rng : NpRng) (fs : FSState) : ScriptResult :=
  let pol := cliExtPolicy args
  let cli_output_dir_val :=
    match args.output_dir with
    | some d => d
    | none => "./generated_files_cli_default"
  if !is_path_valid env fs cli_output_dir_val then
    { exit_code := some 1, run := none, final_fs := fs, tui_selected_dir := none }
  else
    let r := py_main cli_output_dir_val args.num_files args.num_batches
      args.name_length args.text_length pol.1 args.workers args.delay false pol.2
      env fails rng fs
    { exit_code := none, run := some r, final_fs := r.final_fs,
      tui_selected_dir := none }

/-- The Windows drive-letter candidates `A:\ .. Z:\` (source lines 213-216). -/
def driveLetters : List String :=
  ascii_uppercase.toList.map (fun ch => String.mk [ch, ':', '\\'])

/-- The platform-dependent path suggestions of the TUI (source lines 209-219). -/
def suggested_paths (env : OsEnv) (fs : FSState) : List String :=
  if env.os_type = "windows" then
    (driveLetters.filter (fun p => exists_fs fs p)) ++ [".", "Custom path"]
  else
    ["/tmp", expanduser env "~/Downloads", ".", "Custom path"]

/-- Python `int(s)` restricted to unsigned decimal digits (the only inputs
the prompts accept without raising); implemented by structural recursion so
it evaluates inside the kernel. -/
def pyIntNat? (s : String) : Option Nat :=
  let cs := s.toList
  if cs ≠ [] ∧ cs.all (fun ch => ch.isDigit) then
    some (cs.foldl (fun n ch => n * 10 + (ch.toNat - 48)) 0)
  else none

/-- The decimal digit character for `n % 10`. -/
def digitChar10 (n : Nat) : Char :=
  Char.ofNat (48 + n % 10)

/-- Digits of `n`, most significant first (fuel-bounded). -/
def natToStrAux : Nat → Nat → List Char → List Char
  | 0, _, acc => acc
  | Nat.succ f, n, acc =>
    if n < 10 then digitChar10 n :: acc
    else natToStrAux f (n / 10) (digitChar10 n :: acc)

/-- Python `str(n)` for a natural number. -/
def natToStr (n : Nat) : String :=
  String.mk (natToStrAux (n + 1) n [])

/-- Split a character list at every occurrence of `sep`. -/
def splitCharAux (sep : Char) : List Char → List Char → List (List Char)
  | [], acc => [acc.reverse]
  | c :: rest, acc =>
    if c = sep then acc.reverse :: splitCharAux sep rest []
    else splitCharAux sep rest (c :: acc)

/-- A cursor over the stream of interactive answers the user types. -/
structure Cursor where
  inp : Nat → String
  pos : Nat

/-- `Prompt.ask` with no default: return the next answer verbatim. -/
def askRaw (c : Cursor) : String × Cursor :=
  (c.inp c.pos, { c with pos := c.pos + 1 })

/-- `Prompt.ask` with a default: an empty answer becomes the default. -/
def askDefault (c : Cursor) (d : String) : String × Cursor :=
  let a := askRaw c
  (if a.1 = "" then d else a.1, a.2)

/-- The TUI path-selection loop (source lines 224-250): parse the answer as
a choice number when possible ("Custom path" triggers a further prompt; an
out-of-range number or a non-number is treated as a custom path), then
repeat until `is_path_valid` accepts the selection.  Fuel bounds the number
of attempts; `none` models a session that never selects a valid path. -/
def pathSelLoop (env : OsEnv) (fs : FSState) (choices : List String) :
    Nat → Cursor → Option (String × Cursor)
  | 0, _ => none
  | Nat.succ n, c =>
    let a := askDefault c "1"
    let od : String × Cursor :=
      match pyIntNat? a.1 with
      | some k =>
        if 1 ≤ k ∧ k ≤ choices.length then
          let sel := choices.getD (k - 1) ""
          if sel = "Custom path" then askRaw a.2 else (sel, a.2)
        else (a.1, a.2)
      | none => (a.1, a.2)
    if is_path_valid env fs od.1 then some (od.1, od.2)
    else pathSelLoop env fs choices n od.2

/-- `Prompt.ask` with a `choices` list: an empty answer becomes the default,
an invalid answer makes rich re-ask (fuel-bounded). -/
def askChoice : Nat → Cursor → List String → String → Option (String × Cursor)
  | 0, _, _, _ => none
  | Nat.succ n, c, chs, d =>
    let a := askRaw c
    if a.1 = "" then some (d, a.2)
    else if chs.contains a.1 then some (a.1, a.2)
    else askChoice n a.2 chs d

/-- A numeric prompt with a default (`int(...)` conversion; an unparseable
non-empty answer aborts the flow, modelling the raised `ValueError`). -/
def askNat (c : Cursor) (d : Nat) : Option (Nat × Cursor) :=
  let a := askRaw c
  if a.1 = "" then some (d, a.2)
  else
    match pyIntNat? a.1 with
    | some v => some (v, a.2)
    | none => none

/-- Python `str.split()` on spaces, dropping empty fields. -/
def pySplitWs (s : String) : List String :=
  ((splitCharAux ' ' s.toList []).map String.mk).filter (fun t => t ≠ "")

/-- `float(s)` truncated to a natural number (`digits` or `digits.digits`);
the fractional part is behaviorally inert because the delay only sleeps. -/
def pyFloatNat? (s : String) : Option Nat :=
  match splitCharAux '.' s.toList [] with
  | [a] => pyIntNat? (String.mk a)
  | [a, b] =>
    if b ≠ [] ∧ b.all (fun ch => ch.isDigit) then pyIntNat? (String.mk a)
    else none
  | _ => none

/-- The TUI extension-mode step (source lines 258-289). -/
def tuiExtStep (fuel : Nat) (c : Cursor) :
    Option (Option (List String) × Bool × Cursor) :=
  match askChoice fuel c ["1", "2", "3"] "3" with
  | none => none
  | some (ch, c1) =>
    if ch = "1" then
      let a := askRaw c1
      let l := pySplitWs a.1
      some (some (if l = [] then DEFAULT_EXTENSIONS else l), false, a.2)
    else if ch = "2" then
      match askChoice fuel c1 ["yes", "no"] "no" with
      | none => none
      | some (yn, c2) =>
        if yn = "yes" then
          let a := askRaw c2
          let l := pySplitWs a.1
          some (some (if l = [] then RANDOM_CHOICE_EXTENSIONS else l), false, a.2)
        else some (some RANDOM_CHOICE_EXTENSIONS, false, c2)
    else some (none, true, c1)

/-- Worker-thread prompt handling (source lines 292-293). -/
def parseWorkers (s : String) (d : Option Nat) : Option (Option Nat) :=
  if s = "" then some d
  else
    match pyIntNat? s with
    | some v => some (some v)
    | none => none

/-- Delay prompt handling (source lines 295-296). -/
def parseDelay (s : String) (d : Nat) : Option Nat :=
  if s = "" then some d
  else pyFloatNat? s

/-- Everything the TUI collects before calling `main` (source lines 206-296). -/
structure TuiParams where
  /-- the validated path bound to the local variable `output_dir`. -/
  selected_dir : String
  /-- the variable initialized to `""` at source line 207 and never
  reassigned, which is what line 298 actually passes to `main`. -/
  tui_output_dir : String
  num_files_pb : Nat
  num_b : Nat
  name_l : Nat
  text_l : Nat
  tui_extensions_list : Option (List String)
  tui_use_random_4_char : Bool
  workers_val : Option Nat
  op_delay_s_val : Nat

/-- The TUI parameter-collection flow (source lines 206-296). -/
def tuiCollect (args : Args) (env : OsEnv) (fs : FSState) (tuiFuel : Nat)
    (tuiIn : Nat → String) : Option TuiParams := do
  let tui_output_dir : String := ""
  let choices := (suggested_paths env fs).map env.pnormpath
  let (output_dir, c1) ← pathSelLoop env fs choices tuiFuel { inp := tuiIn, pos := 0 }
  let (num_files_pb, c2) ← askNat c1 args.num_files
  let (num_b, c3) ← askNat c2 args.num_batches
  let (name_l, c4) ← askNat c3 args.name_length
  let (text_l, c5) ← askNat c4 args.text_length
  let (exts, use4, c6) ← tuiExtStep tuiFuel c5
  let w := askRaw c6
  let workers_val ← parseWorkers w.1 args.workers
  let d := askDefault w.2 (natToStr args.delay)
  let op_delay ← parseDelay d.1 args.delay
  pure { selected_dir := output_dir, tui_output_dir := tui_output_dir,
         num_files_pb := num_files_pb, num_b := num_b, name_l := name_l,
         text_l := text_l, tui_extensions_list := exts,
         tui_use_random_4_char := use4, workers_val := workers_val,
         op_delay_s_val := op_delay }

/-- The TUI branch of `__main__` (source lines 205-307): collect parameters,
then call `main` with `output_dir=tui_output_dir` (source line 298). -/
def scriptTui (args : Args) (env : OsEnv) (tuiFuel : Nat) (tuiIn : Nat → String)
    (fails : Nat → Nat → Bool) (rng : NpRng) (fs : FSState) : ScriptResult :=
  match tuiCollect args env fs tuiFuel tuiIn with
  | none =>
    { exit_code := none, run := none, final_fs := fs, tui_selected_dir := none }
  | some p =>
    let r := py_main p.tui_output_dir p.num_files_pb p.num_b p.name_l p.text_l
      p.tui_extensions_list p.workers_val p.op_delay_s_val true
      p.tui_use_random_4_char env fails rng fs
    { exit_code := none, run := some r, final_fs := r.final_fs,
      tui_selected_dir := some p.selected_dir }

/-- The `__main__` entry (source lines 144-307): CLI mode when an output
directory or extension flag is present, otherwise the interactive TUI. -/
def scriptMain (args : Args) (env : OsEnv) (tuiFuel : Nat) (tuiIn : Nat → String)
    (fails : Nat → Nat → Bool) (rng : NpRng) (fs : FSState) : ScriptResult :=
  if is_cli_mode args then scriptCli args env fails rng fs
  else scriptTui args env tuiFuel tuiIn fails rng fs

-- Shared concrete fixtures for witnesses.

/-- A concrete global RandomState whose raw draw stream is the identity. -/
def rngId : NpRng := { seq := fun n => n, pos := 0 }

/-- A filesystem holding just the output directory `out`. -/
def fsOut : FSState := { dirs := ["out"], files := [] }

/-- A benign OS environment. -/
def env0 : OsEnv :=
  { phomeexpand := fun s => s, writable := fun _ => true, cpu_count := some 8,
    os_type := "linux", pnormpath := fun s => s }

theorem charsetList_ne_nil : charsetList ≠ [] := by decide

theorem charsetList_len_62 : charsetList.length = 62 := by decide

theorem pathJoin_out_ne (s : String) : pathJoin "out" s ≠ "out" := by
  intro heq
  unfold pathJoin at heq
  by_cases h : startsWithSlash s = true
  · rw [if_pos h] at heq
    subst heq
    exact absurd h (by decide)
  · rw [if_neg h, if_neg (by decide)] at heq
    have hlen := congrArg String.length heq
    rw [String.length_append] at hlen
    have h4 : ("out" ++ "/" : String).length = 4 := rfl
    have h3 : ("out" : String).length = 3 := rfl
    omega

theorem isdir_fsOut_join (s : String) :
    isdir_fs fsOut (pathJoin "out" s) = false := by
  have hne := pathJoin_out_ne s
  cases hb : isdir_fs fsOut (pathJoin "out" s)
  · rfl
  · exfalso
    have hm : pathJoin "out" s ∈ fsOut.dirs := List.mem_of_elem_eq_true hb
    simp only [fsOut, List.mem_singleton] at hm
    exact hne hm

/-- C6: when `num_workers` is unspecified (`None`), the dispatcher resolves
the worker-pool size to exactly `min(32, cpu_count + 4)` (for a platform
reporting a positive CPU count; source lines 48-49); when a worker count is
specified, that value is used unchanged (source lines 50-51). -/
theorem C6_worker_count_heuristic (num_f : Nat) (output_dir : String)
    (name_len text_len delay_s : Nat) (el : Option (List String)) (u4 : Bool)
    (fails : Nat → Bool) (rng : NpRng) (fs : FSState) :
    (∀ c : Nat, 0 < c →
      (generate_files num_f output_dir name_len text_len delay_s el u4
        none (some c) fails rng fs).actual_num_workers = min 32 (c + 4)) ∧
    (∀ (w : Nat) (cpu : Option Nat),
      (generate_files num_f output_dir name_len text_len delay_s el u4
        (some w) cpu fails rng fs).actual_num_workers = w) := by
  constructor
  · intro c hc
    simp [generate_files, pyOrDefault, Nat.pos_iff_ne_zero.mp hc]
  · intro w cpu
    simp [generate_files]

/-- C6 witness: the heuristic at `cpu_count = 8` and an explicit count 7. -/
theorem C6_worker_count_heuristic_witness :
    (0 < 8 ∧
      (generate_files 5 "out" 2 3 0 none true none (some 8) (fun _ => false)
        rngId fsOut).actual_num_workers = min 32 (8 + 4)) ∧
    (generate_files 5 "out" 2 3 0 none true (some 7) (some 8) (fun _ => false)
      rngId fsOut).actual_num_workers = 7 :=
  ⟨⟨by decide,
    (C6_worker_count_heuristic 5 "out" 2 3 0 none true (fun _ => false)
      rngId fsOut).1 8 (by decide)⟩,
   (C6_worker_count_heuristic 5 "out" 2 3 0 none true (fun _ => false)
      rngId fsOut).2 7 (some 8)⟩

/-- The parent directory `is_path_valid` checks for a non-existing path
(source lines 85-87): `os.path.dirname`, with the current directory as the
fallback when the dirname is empty. -/
def parentDirOf (e : String) : String :=
  if dirname e = "" then "." else dirname e

/-- `is_path_valid` unfolded to a boolean normal form. -/
theorem is_path_valid_eq (env : OsEnv) (fs : FSState) (p : String) :
    is_path_valid env fs p =
      (if exists_fs fs (expanduser env p) then
        isdir_fs fs (expanduser env p) && env.writable (expanduser env p)
      else
        exists_fs fs (parentDirOf (expanduser env p)) &&
        isdir_fs fs (parentDirOf (expanduser env p)) &&
        env.writable (parentDirOf (expanduser env p))) := by
  unfold is_path_valid parentDirOf
  cases hE : exists_fs fs (expanduser env p) <;>
    cases hD : isdir_fs fs (expanduser env p) <;>
      cases hW : env.writable (expanduser env p) <;>
        cases hPE : exists_fs fs
            (if dirname (expanduser env p) = "" then "."
             else dirname (expanduser env p)) <;>
          cases hPD : isdir_fs fs
              (if dirname (expanduser env p) = "" then "."
               else dirname (expanduser env p)) <;>
            cases hPW : env.writable
                (if dirname (expanduser env p) = "" then "."
                 else dirname (expanduser env p)) <;>
              simp [hE, hD, hW, hPE, hPD, hPW]

/-- C2: `is_path_valid` returns success for an existing writable directory,
for a non-existing path whose parent directory exists, is a directory and is
writable, and for the current directory; it returns failure when the path
exists but is not a directory, when it is an existing non-writable
directory, and when neither the path nor its parent exists. -/
theorem C2_is_path_valid_cases (env : OsEnv) (fs : FSState) (p : String) :
    (exists_fs fs (expanduser env p) = true →
     isdir_fs fs (expanduser env p) = true →
     env.writable (expanduser env p) = true →
     is_path_valid env fs p = true) ∧
    (exists_fs fs (expanduser env p) = false →
     exists_fs fs (parentDirOf (expanduser env p)) = true →
     isdir_fs fs (parentDirOf (expanduser env p)) = true →
     env.writable (parentDirOf (expanduser env p)) = true →
     is_path_valid env fs p = true) ∧
    (exists_fs fs "." = true → isdir_fs fs "." = true →
     env.writable "." = true → is_path_valid env fs "." = true) ∧
    (exists_fs fs (expanduser env p) = true →
     isdir_fs fs (expanduser env p) = false →
     is_path_valid env fs p = false) ∧
    (exists_fs fs (expanduser env p) = true →
     isdir_fs fs (expanduser env p) = true →
     env.writable (expanduser env p) = false →
     is_path_valid env fs p = false) ∧
    (exists_fs fs (expanduser env p) = false →
     exists_fs fs (parentDirOf (expanduser env p)) = false →
     is_path_valid env fs p = false) := by
  have hdot : expanduser env "." = "." := rfl
  refine ⟨?_, ?_, ?_, ?_, ?_, ?_⟩
  · intro h1 h2 h3
    rw [is_path_valid_eq]
    simp [h1, h2, h3]
  · intro h1 h2 h3 h4
    rw [is_path_valid_eq]
    simp [h1, h2, h3, h4]
  · intro h1 h2 h3
    rw [is_path_valid_eq, hdot]
    simp [h1, h2, h3]
  · intro h1 h2
    rw [is_path_valid_eq]
    simp [h1, h2]
  · intro h1 h2 h3
    rw [is_path_valid_eq]
    simp [h1, h2, h3]
  · intro h1 h2
    rw [is_path_valid_eq]
    simp [h1, h2]

/-- A filesystem fixture for the `is_path_valid` scenarios: a writable
directory `d`, the current directory, a non-writable directory `nw`, and a
regular file `f`. -/
def fsC2 : FSState := { dirs := ["d", ".", "nw"], files := [("f", "x")] }

/-- An environment in which everything except `nw` is writable. -/
def envC2 : OsEnv :=
  { phomeexpand := fun s => s, writable := fun s => !(s == "nw"),
    cpu_count := some 8, os_type := "linux", pnormpath := fun s => s }

/-- C2 witness: all six scenarios evaluated on the fixture. -/
theorem C2_is_path_valid_cases_witness :
    is_path_valid envC2 fsC2 "d" = true ∧
    is_path_valid envC2 fsC2 "d/new" = true ∧
    is_path_valid envC2 fsC2 "." = true ∧
    is_path_valid envC2 fsC2 "f" = false ∧
    is_path_valid envC2 fsC2 "nw" = false ∧
    is_path_valid envC2 fsC2 "x/y" = false :=
  ⟨(C2_is_path_valid_cases envC2 fsC2 "d").1 (by decide) (by decide) (by decide),
   (C2_is_path_valid_cases envC2 fsC2 "d/new").2.1 (by decide) (by decide)
     (by decide) (by decide),
   (C2_is_path_valid_cases envC2 fsC2 ".").2.2.1 (by decide) (by decide) (by decide),
   (C2_is_path_valid_cases envC2 fsC2 "f").2.2.2.1 (by decide) (by decide),
   (C2_is_path_valid_cases envC2 fsC2 "nw").2.2.2.2.1 (by decide) (by decide)
     (by decide),
   (C2_is_path_valid_cases envC2 fsC2 "x/y").2.2.2.2.2 (by decide) (by decide)⟩

/-- C7: the directory-creation step of the synthesizer
(`os.makedirs(output_dir, exist_ok=True)`, source line 36) is idempotent:
after a successful call, invoking it again on the same path succeeds (the
directory already existing is not an error) and returns the state
unchanged; moreover the first call already left every existing file and
directory in place. -/
theorem C7_makedirs_idempotent (fs : FSState) (p : String) (fs2 : FSState)
    (h : ensureOutputDir fs p = Except.ok fs2) :
    ensureOutputDir fs2 p = Except.ok fs2 ∧
    fs2.files = fs.files ∧ (∀ d ∈ fs.dirs, d ∈ fs2.dirs) := by
  have h' : makedirs fs p true = Except.ok fs2 := h
  refine ⟨?_, makedirs_ok_files fs p true fs2 h', makedirs_ok_dirs_sub fs p true fs2 h'⟩
  rcases makedirs_ok_isdir fs p true fs2 h' with hd | hp
  · exact makedirs_exist_ok_of_isdir fs2 p hd
  · subst hp
    by_cases hd : isdir_fs fs2 "" = true
    · exact makedirs_exist_ok_of_isdir fs2 "" hd
    · show makedirs fs2 "" true = Except.ok fs2
      unfold makedirs
      simp [hd, pathChain, pathChainFuel]

/-- C7 witness: creating `a/b` in an empty filesystem, then repeating. -/
theorem C7_makedirs_idempotent_witness :
    ensureOutputDir { dirs := [], files := [] } "a/b"
        = Except.ok { dirs := ["a/b", "a"], files := [] } ∧
    (ensureOutputDir { dirs := ["a/b", "a"], files := [] } "a/b"
        = Except.ok { dirs := ["a/b", "a"], files := [] } ∧
     FSState.files { dirs := ["a/b", "a"], files := [] }
        = FSState.files { dirs := [], files := [] } ∧
     (∀ d ∈ FSState.dirs { dirs := [], files := [] },
        d ∈ FSState.dirs { dirs := ["a/b", "a"], files := [] })) :=
  ⟨rfl, C7_makedirs_idempotent { dirs := [], files := [] } "a/b"
     { dirs := ["a/b", "a"], files := [] } rfl⟩

theorem writeFile_ok_of_not_dir (fs : FSState) (p s : String)
    (h : isdir_fs fs p = false) :
    writeFile fs p s =
      Except.ok { fs with files := (p, s) :: fs.files.filter (fun q => q.1 ≠ p) } := by
  unfold writeFile
  simp [h]

/-- `generate_file` when the output directory already exists: the
`os.makedirs` step is a no-op and the call reduces to drawing the name,
extension and content and attempting the write. -/
theorem generate_file_eq (i : Nat) (out : String) (nl tl ds : Nat)
    (el : Option (List String)) (u4 wf : Bool) (rng : NpRng) (fs : FSState)
    (hdir : isdir_fs fs out = true) :
    generate_file i out nl tl ds el u4 wf rng fs =
      (let nm := npChoiceChars charsetList nl rng
       let er := chooseExtension el u4 nm.2
       let file_path := pathJoin out (String.mk nm.1 ++ "." ++ er.1)
       let ct := npChoiceChars charsetList tl er.2
       if wf then (Except.error "IOError", ct.2)
       else
         match writeFile fs file_path (String.mk ct.1) with
         | Except.error e => (Except.error e, ct.2)
         | Except.ok fs2 =>
           (Except.ok ({ random_name := String.mk nm.1, extension := er.1,
                         file_path := file_path, random_text := String.mk ct.1,
                         warnings := [] }, fs2), ct.2)) := by
  unfold generate_file
  rw [show ensureOutputDir fs out = Except.ok fs
      from makedirs_exist_ok_of_isdir fs out hdir]

theorem string_length_mk (cs : List Char) : (String.mk cs).length = cs.length := rfl

theorem string_toList_mk (cs : List Char) : (String.mk cs).toList = cs := rfl

theorem chooseExtension_u4 (el : Option (List String)) (rng : NpRng) :
    (chooseExtension el true rng).1.length = 4 ∧
    ∀ c ∈ (chooseExtension el true rng).1.toList, c ∈ charsetList := by
  unfold chooseExtension
  simp only [if_pos rfl]
  constructor
  · rw [string_length_mk]
    exact npChoiceChars_length charsetList 4 rng
  · intro c hc
    rw [string_toList_mk] at hc
    exact npChoiceChars_mem charsetList charsetList_ne_nil 4 rng c hc

theorem chooseExtension_fallback (el : Option (List String)) (rng : NpRng)
    (hu : extListUsable el = false) :
    (chooseExtension el false rng).1.length = 4 ∧
    ∀ c ∈ (chooseExtension el false rng).1.toList, c ∈ charsetList := by
  unfold chooseExtension
  simp only [Bool.false_eq_true, if_false, hu]
  constructor
  · rw [string_length_mk]
    exact npChoiceChars_length charsetList 4 rng
  · intro c hc
    rw [string_toList_mk] at hc
    exact npChoiceChars_mem charsetList charsetList_ne_nil 4 rng c hc

theorem chooseExtension_fixed (l : List String) (hne : l ≠ []) (rng : NpRng) :
    (chooseExtension (some l) false rng).1 ∈ l := by
  have hu : extListUsable (some l) = true := by
    simp [extListUsable, List.length_pos.mpr hne]
  unfold chooseExtension
  simp only [Bool.false_eq_true, if_false, hu, if_pos rfl]
  unfold npChoiceStr
  simp only [Option.getD_some]
  rw [List.getD_eq_getElem l "" (Nat.mod_lt _ (List.length_pos.mpr hne))]
  exact List.getElem_mem _

/-- The extension field of a successful `generate_file` call is exactly the
one chosen by the source's lines 24-33. -/
theorem generate_file_extension (i : Nat) (output_dir : String)
    (name_len text_len delay_s : Nat) (extensions_list : Option (List String))
    (u4 wf : Bool) (rng rng2 : NpRng) (fs fs2 : FSState) (r : GenFileResult)
    (h : generate_file i output_dir name_len text_len delay_s extensions_list
          u4 wf rng fs = (Except.ok (r, fs2), rng2)) :
    r.extension = (chooseExtension extensions_list u4
      (npChoiceChars charsetList name_len rng).2).1 := by
  unfold generate_file at h
  split at h
  · simp at h
  · split at h
    · simp at h
    · dsimp only at h
      split at h
      · simp at h
      · simp only [Prod.mk.injEq, Except.ok.injEq] at h
        obtain ⟨⟨hrec, -⟩, -⟩ := h
        rw [← hrec]

/-- C3: when random-4 mode is on, the generated extension has exactly 4
characters, all from the 62-symbol alphanumeric charset; when a non-empty
fixed extension set is configured and random-4 mode is off, the generated
extension is a member of that set (source lines 24-33). -/
theorem C3_extension_policy (i : Nat) (output_dir : String)
    (name_len text_len delay_s : Nat) (extensions_list : Option (List String))
    (u4 wf : Bool) (rng rng2 : NpRng) (fs fs2 : FSState) (r : GenFileResult)
    (h : generate_file i output_dir name_len text_len delay_s extensions_list
          u4 wf rng fs = (Except.ok (r, fs2), rng2)) :
    (u4 = true →
      r.extension.length = 4 ∧ ∀ c ∈ r.extension.toList, c ∈ charsetList) ∧
    (∀ l, extensions_list = some l → l ≠ [] → u4 = false → r.extension ∈ l) := by
  have hext := generate_file_extension i output_dir name_len text_len delay_s
    extensions_list u4 wf rng rng2 fs fs2 r h
  constructor
  · intro hu4
    subst hu4
    rw [hext]
    exact chooseExtension_u4 extensions_list _
  · intro l hel hne hu4
    subst hel
    subst hu4
    rw [hext]
    exact chooseExtension_fixed l hne _

/-- C3 witness fixture: the file produced by the concrete call below. -/
def rC3 : GenFileResult :=
  { random_name := "a", extension := "txt", file_path := "out/a.txt",
    random_text := "", warnings := [] }

/-- C3 witness: a concrete call with the fixed set `["log", "txt"]` whose
chosen extension is a member of the set. -/
theorem C3_extension_policy_witness :
    generate_file 0 "out" 1 0 0 (some ["log", "txt"]) false false rngId fsOut
        = (Except.ok (rC3, { dirs := ["out"], files := [("out/a.txt", "")] }),
           { seq := fun n => n, pos := 2 }) ∧
    rC3.extension ∈ ["log", "txt"] :=
  ⟨rfl,
   (C3_extension_policy 0 "out" 1 0 0 (some ["log", "txt"]) false false rngId
      { seq := fun n => n, pos := 2 } fsOut
      { dirs := ["out"], files := [("out/a.txt", "")] } rC3 rfl).2
     ["log", "txt"] rfl (by decide) rfl⟩

/-- C10: with no usable extension policy — `extensions_list` `None` or empty
and `use_random_4_char_ext` off — `generate_file` silently falls back to a
random 4-character alphanumeric extension: the call still succeeds, writes
the file, and emits no warning or error (the warning at source line 32 is
commented out). -/
theorem C10_silent_fallback_random4 (i : Nat) (output_dir : String)
    (name_len text_len delay_s : Nat) (extensions_list : Option (List String))
    (rng : NpRng) (fs : FSState)
    (hempty : extensions_list = none ∨ extensions_list = some [])
    (hdir : isdir_fs fs output_dir = true)
    (hsub : ∀ s, isdir_fs fs (pathJoin output_dir s) = false) :
    ∃ (r : GenFileResult) (fs2 : FSState) (rng2 : NpRng),
      generate_file i output_dir name_len text_len delay_s extensions_list
          false false rng fs = (Except.ok (r, fs2), rng2) ∧
      r.extension.length = 4 ∧ (∀ c ∈ r.extension.toList, c ∈ charsetList) ∧
      r.warnings = [] ∧ (r.file_path, r.random_text) ∈ fs2.files := by
  have hu : extListUsable extensions_list = false := by
    rcases hempty with he | he <;> subst he <;> rfl
  rw [generate_file_eq i output_dir name_len text_len delay_s extensions_list
    false false rng fs hdir]
  dsimp only
  rw [if_neg (by simp)]
  rw [writeFile_ok_of_not_dir fs _ _ (hsub _)]
  refine ⟨_, _, _, rfl, ?_, ?_, rfl, ?_⟩
  · exact (chooseExtension_fallback extensions_list _ hu).1
  · exact (chooseExtension_fallback extensions_list _ hu).2
  · exact List.mem_cons_self _ _

/-- C10 witness: a concrete fallback call (`extensions_list = None`,
random-4 flag off) succeeding with a 4-character alphanumeric extension. -/
theorem C10_silent_fallback_random4_witness :
    isdir_fs fsOut "out" = true ∧
    (∃ (r : GenFileResult) (fs2 : FSState) (rng2 : NpRng),
      generate_file 0 "out" 1 2 0 none false false rngId fsOut
          = (Except.ok (r, fs2), rng2) ∧
      r.extension.length = 4 ∧ (∀ c ∈ r.extension.toList, c ∈ charsetList) ∧
      r.warnings = [] ∧ (r.file_path, r.random_text) ∈ fs2.files) :=
  ⟨by decide,
   C10_silent_fallback_random4 0 "out" 1 2 0 none rngId fsOut (Or.inl rfl)
     (by decide) (fun s => isdir_fsOut_join s)⟩

/-- Did an outcome (a future of the dispatcher) complete without raising? -/
def exceptOk (o : Except String GenFileResult) : Bool :=
  match o with
  | Except.ok _ => true
  | Except.error _ => false

/-- What a correctly produced file looks like: name of the configured
length, content of the configured length over the 62-symbol charset, path
composed under the output directory. -/
def goodFile (p : TaskParams) (r : GenFileResult) : Prop :=
  r.random_name.length = p.name_len ∧
  r.random_text.length = p.text_len ∧
  (∀ c ∈ r.random_text.toList, c ∈ charsetList) ∧
  r.file_path = pathJoin p.output_dir (r.random_name ++ "." ++ r.extension)

/-- Master invariant of the sequentialized dispatcher: when the output
directory exists and no path under it is a directory, the run preserves the
directory set, produces one outcome per submitted task, each task's outcome
fails exactly when its own write fails (a sibling failure neither cancels
nor fails it), and every successful outcome is a well-formed file. -/
theorem runTasks_master (p : TaskParams) (fails : Nat → Bool) :
    ∀ (idxs : List Nat) (rng : NpRng) (fs : FSState),
      isdir_fs fs p.output_dir = true →
      (∀ s, isdir_fs fs (pathJoin p.output_dir s) = false) →
      (runTasks p fails idxs rng fs).2.1.dirs = fs.dirs ∧
      (runTasks p fails idxs rng fs).2.2.length = idxs.length ∧
      (∀ k, k < idxs.length →
        exceptOk ((runTasks p fails idxs rng fs).2.2.getD k (Except.error ""))
          = !(fails (idxs.getD k 0))) ∧
      (∀ r, Except.ok r ∈ (runTasks p fails idxs rng fs).2.2 → goodFile p r) := by
  intro idxs
  induction idxs with
  | nil =>
    intro rng fs hdir hsub
    refine ⟨rfl, rfl, ?_, ?_⟩
    · intro k hk
      exact absurd hk (Nat.not_lt_zero k)
    · intro r hr
      simp [runTasks] at hr
  | cons i rest ih =>
    intro rng fs hdir hsub
    have hgf := generate_file_eq i p.output_dir p.name_len p.text_len p.delay_s
      p.extensions_list p.use_random_4_char_ext (fails i) rng fs hdir
    dsimp only at hgf
    by_cases hf : fails i = true
    · rw [if_pos hf] at hgf
      have hrt : runTasks p fails (i :: rest) rng fs =
          (let t := runTasks p fails rest
            (npChoiceChars charsetList p.text_len
              (chooseExtension p.extensions_list p.use_random_4_char_ext
                (npChoiceChars charsetList p.name_len rng).2).2).2 fs
           (t.1, t.2.1, Except.error "IOError" :: t.2.2)) := by
        simp only [runTasks, hgf]
      rw [hrt]
      dsimp only
      obtain ⟨ihd, ihl, ihk, ihg⟩ := ih _ fs hdir hsub
      refine ⟨ihd, by simp [ihl], ?_, ?_⟩
      · intro k hk
        cases k with
        | zero => simp [exceptOk, hf]
        | succ k2 =>
          simp only [List.getD_cons_succ]
          exact ihk k2 (Nat.lt_of_succ_lt_succ hk)
      · intro r hr
        rcases List.mem_cons.mp hr with hr | hr
        · exact absurd hr (by simp)
        · exact ihg r hr
    · rw [if_neg hf] at hgf
      obtain ⟨fs2, hw⟩ : ∃ fs2, writeFile fs
          (pathJoin p.output_dir
            (String.mk (npChoiceChars charsetList p.name_len rng).1 ++ "." ++
             (chooseExtension p.extensions_list p.use_random_4_char_ext
               (npChoiceChars charsetList p.name_len rng).2).1))
          (String.mk (npChoiceChars charsetList p.text_len
            (chooseExtension p.extensions_list p.use_random_4_char_ext
              (npChoiceChars charsetList p.name_len rng).2).2).1) = Except.ok fs2 :=
        ⟨_, writeFile_ok_of_not_dir fs _ _ (hsub _)⟩
      rw [hw] at hgf
      have hdirs2 : fs2.dirs = fs.dirs := writeFile_dirs fs _ _ fs2 hw
      have hdir2 : isdir_fs fs2 p.output_dir = true := by
        unfold isdir_fs
        rw [hdirs2]
        exact hdir
      have hsub2 : ∀ s, isdir_fs fs2 (pathJoin p.output_dir s) = false := by
        intro s
        unfold isdir_fs
        rw [hdirs2]
        exact hsub s
      have hrt : runTasks p fails (i :: rest) rng fs =
          (let t := runTasks p fails rest
            (npChoiceChars charsetList p.text_len
              (chooseExtension p.extensions_list p.use_random_4_char_ext
                (npChoiceChars charsetList p.name_len rng).2).2).2 fs2
           (t.1, t.2.1,
            Except.ok { random_name := String.mk (npChoiceChars charsetList p.name_len rng).1,
                        extension := (chooseExtension p.extensions_list
                          p.use_random_4_char_ext
                          (npChoiceChars charsetList p.name_len rng).2).1,
                        file_path := pathJoin p.output_dir
                          (String.mk (npChoiceChars charsetList p.name_len rng).1 ++ "." ++
                           (chooseExtension p.extensions_list p.use_random_4_char_ext
                             (npChoiceChars charsetList p.name_len rng).2).1),
                        random_text := String.mk (npChoiceChars charsetList p.text_len
                          (chooseExtension p.extensions_list p.use_random_4_char_ext
                            (npChoiceChars charsetList p.name_len rng).2).2).1,
                        warnings := [] } :: t.2.2)) := by
        simp only [runTasks, hgf]
      rw [hrt]
      dsimp only
      obtain ⟨ihd, ihl, ihk, ihg⟩ := ih
        (npChoiceChars charsetList p.text_len
          (chooseExtension p.extensions_list p.use_random_4_char_ext
            (npChoiceChars charsetList p.name_len rng).2).2).2 fs2 hdir2 hsub2
      refine ⟨by rw [ihd, hdirs2], by simp [ihl], ?_, ?_⟩
      · intro k hk
        cases k with
        | zero => simp [exceptOk, hf]
        | succ k2 =>
          simp only [List.getD_cons_succ]
          exact ihk k2 (Nat.lt_of_succ_lt_succ hk)
      · intro r hr
        rcases List.mem_cons.mp hr with hr | hr
        · have hre := (Except.ok.injEq _ _).mp hr.symm
          rw [← hre]
          refine ⟨?_, ?_, ?_, rfl⟩
          · rw [string_length_mk]
            exact npChoiceChars_length charsetList p.name_len rng
          · rw [string_length_mk]
            exact npChoiceChars_length charsetList p.text_len _
          · intro c hc
            rw [string_toList_mk] at hc
            exact npChoiceChars_mem charsetList charsetList_ne_nil _ _ c hc
        · exact ihg r hr

/-- C4: within a batch, a task failure neither cancels nor aborts its
siblings — every one of the `num_f` submitted tasks produces its own
outcome, recorded in the dispatcher's (never re-raised) future list, and
each task's success depends only on its own write failing, not on any
sibling's.  `generate_files` itself is a total function into
`DispatchResult`: an `IOError` raised inside a task never propagates out of
the dispatcher (source lines 65-66). -/
theorem C4_task_failures_contained (num_f : Nat) (output_dir : String)
    (name_len text_len delay_s : Nat) (el : Option (List String)) (u4 : Bool)
    (nw cpu : Option Nat) (fails : Nat → Bool) (rng : NpRng) (fs : FSState)
    (hdir : isdir_fs fs output_dir = true)
    (hsub : ∀ s, isdir_fs fs (pathJoin output_dir s) = false) :
    (generate_files num_f output_dir name_len text_len delay_s el u4 nw cpu
        fails rng fs).outcomes.length = num_f ∧
    (∀ k, k < num_f →
      exceptOk ((generate_files num_f output_dir name_len text_len delay_s el
        u4 nw cpu fails rng fs).outcomes.getD k (Except.error ""))
        = !(fails k)) := by
  have hm := runTasks_master
    ⟨output_dir, name_len, text_len, delay_s, el, u4⟩ fails
    (List.range num_f) rng fs hdir hsub
  constructor
  · show (runTasks ⟨output_dir, name_len, text_len, delay_s, el, u4⟩ fails
      (List.range num_f) rng fs).2.2.length = num_f
    rw [hm.2.1, List.length_range]
  · intro k hk
    have hkr : k < (List.range num_f).length := by
      rw [List.length_range]; exact hk
    have hgd : (List.range num_f).getD k 0 = k := by
      rw [List.getD_eq_getElem _ _ hkr]
      simp [List.getElem_range]
    have := hm.2.2.1 k hkr
    rw [hgd] at this
    exact this

/-- C4 witness: two tasks where task 0's write fails and task 1 still
succeeds, both outcomes collected. -/
theorem C4_task_failures_contained_witness :
    isdir_fs fsOut "out" = true ∧
    ((generate_files 2 "out" 1 1 0 none true none (some 4) (fun i => i == 0)
        rngId fsOut).outcomes.length = 2 ∧
     (∀ k, k < 2 →
       exceptOk ((generate_files 2 "out" 1 1 0 none true none (some 4)
         (fun i => i == 0) rngId fsOut).outcomes.getD k (Except.error ""))
         = !((fun i => i == 0) k))) :=
  ⟨by decide,
   C4_task_failures_contained 2 "out" 1 1 0 none true none (some 4)
     (fun i => i == 0) rngId fsOut (by decide) (fun s => isdir_fsOut_join s)⟩

theorem generate_files_outcomes_eq (num_f : Nat) (out : String)
    (nl tl ds : Nat) (el : Option (List String)) (u4 : Bool)
    (nw cpu : Option Nat) (fails : Nat → Bool) (rng : NpRng) (fs : FSState) :
    (generate_files num_f out nl tl ds el u4 nw cpu fails rng fs).outcomes
      = (runTasks ⟨out, nl, tl, ds, el, u4⟩ fails (List.range num_f) rng fs).2.2 := rfl

theorem generate_files_fs_eq (num_f : Nat) (out : String)
    (nl tl ds : Nat) (el : Option (List String)) (u4 : Bool)
    (nw cpu : Option Nat) (fails : Nat → Bool) (rng : NpRng) (fs : FSState) :
    (generate_files num_f out nl tl ds el u4 nw cpu fails rng fs).world_fs
      = (runTasks ⟨out, nl, tl, ds, el, u4⟩ fails (List.range num_f) rng fs).2.1 := rfl

theorem all_ok_of_getD (l : List (Except String GenFileResult))
    (h : ∀ k, k < l.length → exceptOk (l.getD k (Except.error "")) = true) :
    ∀ o ∈ l, exceptOk o = true := by
  intro o ho
  obtain ⟨k, hk, hko⟩ := List.getElem_of_mem ho
  have := h k hk
  rw [List.getD_eq_getElem _ _ hk, hko] at this
  exact this

/-- Master invariant of the batch loop: batches run sequentially against a
preserved directory set, the outcome count is `batches * filesPerBatch`,
every successful outcome is a well-formed file, and with no write failures
every outcome is a success. -/
theorem batchLoop_master (num_files_pb : Nat) (dirE : String)
    (name_l text_l op_delay_s : Nat) (fe : Option (List String)) (u4 : Bool)
    (workers cpu : Option Nat) (fails : Nat → Nat → Bool) :
    ∀ (bs : List Nat) (rng : NpRng) (fs : FSState),
      isdir_fs fs dirE = true →
      (∀ s, isdir_fs fs (pathJoin dirE s) = false) →
      (batchLoop num_files_pb dirE name_l text_l op_delay_s fe u4 workers cpu
        fails bs rng fs).2.1.dirs = fs.dirs ∧
      (batchLoop num_files_pb dirE name_l text_l op_delay_s fe u4 workers cpu
        fails bs rng fs).2.2.length = bs.length * num_files_pb ∧
      (∀ r, Except.ok r ∈ (batchLoop num_files_pb dirE name_l text_l op_delay_s
          fe u4 workers cpu fails bs rng fs).2.2 →
        goodFile ⟨dirE, name_l, text_l, op_delay_s, fe, u4⟩ r) ∧
      ((∀ b i, fails b i = false) →
        ∀ o ∈ (batchLoop num_files_pb dirE name_l text_l op_delay_s fe u4
          workers cpu fails bs rng fs).2.2, exceptOk o = true) := by
  intro bs
  induction bs with
  | nil =>
    intro rng fs hdir hsub
    refine ⟨rfl, by simp [batchLoop], ?_, ?_⟩
    · intro r hr
      simp [batchLoop] at hr
    · intro hz o ho
      simp [batchLoop] at ho
  | cons b rest ih =>
    intro rng fs hdir hsub
    have hm := runTasks_master ⟨dirE, name_l, text_l, op_delay_s, fe, u4⟩
      (fails b) (List.range num_files_pb) rng fs hdir hsub
    have hfs2 : (generate_files num_files_pb dirE name_l text_l op_delay_s fe
        u4 workers cpu (fails b) rng fs).world_fs.dirs = fs.dirs := by
      rw [generate_files_fs_eq]
      exact hm.1
    have hdir2 : isdir_fs (generate_files num_files_pb dirE name_l text_l
        op_delay_s fe u4 workers cpu (fails b) rng fs).world_fs dirE = true := by
      unfold isdir_fs
      rw [hfs2]
      exact hdir
    have hsub2 : ∀ s, isdir_fs (generate_files num_files_pb dirE name_l text_l
        op_delay_s fe u4 workers cpu (fails b) rng fs).world_fs
        (pathJoin dirE s) = false := by
      intro s
      unfold isdir_fs
      rw [hfs2]
      exact hsub s
    obtain ⟨ihd, ihl, ihg, ihz⟩ := ih
      (generate_files num_files_pb dirE name_l text_l op_delay_s fe u4 workers
        cpu (fails b) rng fs).world_rng
      (generate_files num_files_pb dirE name_l text_l op_delay_s fe u4 workers
        cpu (fails b) rng fs).world_fs hdir2 hsub2
    have hout : (generate_files num_files_pb dirE name_l text_l op_delay_s fe
        u4 workers cpu (fails b) rng fs).outcomes.length = num_files_pb := by
      rw [generate_files_outcomes_eq, hm.2.1, List.length_range]
    refine ⟨?_, ?_, ?_, ?_⟩
    · show (batchLoop num_files_pb dirE name_l text_l op_delay_s fe u4 workers
        cpu fails rest _ _).2.1.dirs = fs.dirs
      rw [ihd, hfs2]
    · show ((generate_files num_files_pb dirE name_l text_l op_delay_s fe u4
        workers cpu (fails b) rng fs).outcomes ++
        (batchLoop num_files_pb dirE name_l text_l op_delay_s fe u4 workers cpu
          fails rest _ _).2.2).length = (b :: rest).length * num_files_pb
      rw [List.length_append, hout, ihl, List.length_cons]
      ring
    · intro r hr
      rcases List.mem_append.mp hr with hr | hr
      · rw [generate_files_outcomes_eq] at hr
        exact hm.2.2.2 r hr
      · exact ihg r hr
    · intro hz o ho
      rcases List.mem_append.mp ho with ho | ho
      · rw [generate_files_outcomes_eq] at ho
        have hall := all_ok_of_getD _ ?_ o ho
        · exact hall
        · intro k hk
          have hk2 : k < (List.range num_files_pb).length := by
            rw [← hm.2.1]
            exact hk
          have := hm.2.2.1 k hk2
          rw [hz] at this
          exact this
      · exact ihz hz o ho

theorem okOutcomes_length (l : List (Except String GenFileResult))
    (h : ∀ o ∈ l, exceptOk o = true) : (okOutcomes l).length = l.length := by
  induction l with
  | nil => rfl
  | cons o rest ih =>
    cases o with
    | error e => exact absurd (h _ (List.mem_cons_self _ _)) (by simp [exceptOk])
    | ok r =>
      simp only [okOutcomes, List.filterMap_cons, Except.toOption, List.length_cons]
      have := ih (fun o ho => h o (List.mem_cons_of_mem _ ho))
      simp only [okOutcomes] at this
      rw [this]

theorem mem_okOutcomes (l : List (Except String GenFileResult))
    (g : GenFileResult) (hg : g ∈ okOutcomes l) : Except.ok g ∈ l := by
  unfold okOutcomes at hg
  obtain ⟨o, ho, he⟩ := List.mem_filterMap.mp hg
  cases o with
  | ok r =>
    simp only [Except.toOption, Option.some.injEq] at he
    subst he
    exact ho
  | error e => simp [Except.toOption] at he

/-- C1: for a valid configuration (positive files-per-batch, batch count and
name length; any content length) against a usable target directory, a full
failure-free run produces exactly `num_files_pb * num_b` files, each with
exactly `text_l` content characters drawn from the 62-symbol alphanumeric
charset and a path composed under the (expanded) target directory; and the
reported total equals `num_files_pb * num_b` for EVERY failure oracle — the
count is never adjusted for individual task failures (source line 141). -/
theorem C1_full_run_counts_and_content (output_dir : String)
    (num_files_pb num_b name_l text_l : Nat)
    (file_extensions : Option (List String)) (workers : Option Nat)
    (op_delay_s : Nat) (use_tui u4flag : Bool) (env : OsEnv) (rng : NpRng)
    (fs : FSState)
    (hpos1 : 0 < num_files_pb) (hpos2 : 0 < num_b) (hpos3 : 0 < name_l)
    (hdir : isdir_fs fs (expanduser env output_dir) = true)
    (hsub : ∀ s, isdir_fs fs (pathJoin (expanduser env output_dir) s) = false) :
    charsetList.length = 62 ∧
    (∀ fails, (py_main output_dir num_files_pb num_b name_l text_l
        file_extensions workers op_delay_s use_tui u4flag env fails rng
        fs).reportedTotal = num_files_pb * num_b) ∧
    ((py_main output_dir num_files_pb num_b name_l text_l file_extensions
        workers op_delay_s use_tui u4flag env (fun _ _ => false) rng
        fs).written.length = num_files_pb * num_b) ∧
    (∀ g ∈ (py_main output_dir num_files_pb num_b name_l text_l
        file_extensions workers op_delay_s use_tui u4flag env
        (fun _ _ => false) rng fs).written,
      g.random_text.length = text_l ∧
      (∀ c ∈ g.random_text.toList, c ∈ charsetList) ∧
      g.random_name.length = name_l ∧
      g.file_path = pathJoin (expanduser env output_dir)
        (g.random_name ++ "." ++ g.extension)) := by
  obtain ⟨-, hlen, hgood, hallok⟩ := batchLoop_master num_files_pb
    (expanduser env output_dir) name_l text_l op_delay_s file_extensions u4flag
    workers env.cpu_count (fun _ _ => false) (List.range num_b) rng fs hdir hsub
  refine ⟨by decide, fun fails => rfl, ?_, ?_⟩
  · show (okOutcomes (batchLoop num_files_pb (expanduser env output_dir)
      name_l text_l op_delay_s file_extensions u4flag workers env.cpu_count
      (fun _ _ => false) (List.range num_b) rng fs).2.2).length
      = num_files_pb * num_b
    rw [okOutcomes_length _ (hallok (fun _ _ => rfl)), hlen, List.length_range,
      Nat.mul_comm]
  · intro g hg
    have hmem : Except.ok g ∈ (batchLoop num_files_pb
        (expanduser env output_dir) name_l text_l op_delay_s file_extensions
        u4flag workers env.cpu_count (fun _ _ => false) (List.range num_b) rng
        fs).2.2 :=
      mem_okOutcomes _ g hg
    have hgf := hgood g hmem
    exact ⟨hgf.2.1, hgf.2.2.1, hgf.1, hgf.2.2.2⟩

/-- C1 witness: a concrete failure-free run with 2 files per batch over
1 batch, name length 3 and content length 2. -/
theorem C1_full_run_counts_and_content_witness :
    (0 < 2 ∧ 0 < 1 ∧ 0 < 3) ∧
    (charsetList.length = 62 ∧
     (∀ fails, (py_main "out" 2 1 3 2 none none 0 false true env0 fails rngId
        fsOut).reportedTotal = 2 * 1) ∧
     ((py_main "out" 2 1 3 2 none none 0 false true env0 (fun _ _ => false)
        rngId fsOut).written.length = 2 * 1) ∧
     (∀ g ∈ (py_main "out" 2 1 3 2 none none 0 false true env0
        (fun _ _ => false) rngId fsOut).written,
       g.random_text.length = 2 ∧
       (∀ c ∈ g.random_text.toList, c ∈ charsetList) ∧
       g.random_name.length = 3 ∧
       g.file_path = pathJoin (expanduser env0 "out")
         (g.random_name ++ "." ++ g.extension))) :=
  ⟨⟨by decide, by decide, by decide⟩,
   C1_full_run_counts_and_content "out" 2 1 3 2 none none 0 false true env0
     rngId fsOut (by decide) (by decide) (by decide) (by decide)
     (fun s => isdir_fsOut_join s)⟩

/-- C5: in direct (CLI) mode, when path validation of the output directory
fails, the process exits with status 1 before any file-generation work:
no run happens and the filesystem is returned unchanged (source lines
192-193). -/
theorem C5_cli_invalid_path_exits (args : Args) (env : OsEnv) (tuiFuel : Nat)
    (tuiIn : Nat → String) (fails : Nat → Nat → Bool) (rng : NpRng)
    (fs : FSState)
    (hcli : is_cli_mode args = true)
    (hbad : is_path_valid env fs
      (match args.output_dir with
       | some d => d
       | none => "./generated_files_cli_default") = false) :
    scriptMain args env tuiFuel tuiIn fails rng fs =
      { exit_code := some 1, run := none, final_fs := fs,
        tui_selected_dir := none } := by
  unfold scriptMain scriptCli
  rw [if_pos hcli]
  dsimp only
  rw [hbad]
  rfl

/-- C5 witness fixture: CLI arguments pointing at the regular file `f`. -/
def argsC5 : Args :=
  { output_dir := some "f", num_files := 1000, num_batches := 10,
    name_length := 50, text_length := 10000, extensions := none,
    random_extensions := false, workers := none, delay := 0 }

/-- C5 witness: `-d f` where `f` is an existing regular file exits with
status 1 and leaves the filesystem untouched. -/
theorem C5_cli_invalid_path_exits_witness :
    is_cli_mode argsC5 = true ∧
    scriptMain argsC5 envC2 0 (fun _ => "") (fun _ _ => false) rngId fsC2 =
      { exit_code := some 1, run := none, final_fs := fsC2,
        tui_selected_dir := none } :=
  ⟨rfl,
   C5_cli_invalid_path_exits argsC5 envC2 0 (fun _ => "") (fun _ _ => false)
     rngId fsC2 rfl (by decide)⟩

/-- Every parameter record the TUI flow hands to `main` carries the
untouched `tui_output_dir = ""` of source line 207. -/
theorem tuiCollect_output_dir (args : Args) (env : OsEnv) (fs : FSState)
    (tuiFuel : Nat) (tuiIn : Nat → String) (p : TuiParams)
    (h : tuiCollect args env fs tuiFuel tuiIn = some p) :
    p.tui_output_dir = "" := by
  unfold tuiCollect at h
  simp only [Option.bind_eq_bind, Option.bind_eq_some, Option.pure_def,
    Option.some.injEq] at h
  obtain ⟨⟨od, c1⟩, -, ⟨nf, c2⟩, -, ⟨nb, c3⟩, -, ⟨nl2, c4⟩, -, ⟨tl2, c5⟩, -,
    ⟨exts, use4, c6⟩, -, wv, -, dv, -, h⟩ := h
  rw [← h]

/-- C9: in interactive (TUI) mode, every run that reaches `main` passes the
empty string as the output directory: the validated selection bound to the
local `output_dir` is never assigned to `tui_output_dir` (source lines 207,
244-250 and 298). -/
theorem C9_tui_output_dir_empty (args : Args) (env : OsEnv) (tuiFuel : Nat)
    (tuiIn : Nat → String) (fails : Nat → Nat → Bool) (rng : NpRng)
    (fs : FSState) (r : RunResult)
    (hcli : is_cli_mode args = false)
    (hrun : (scriptMain args env tuiFuel tuiIn fails rng fs).run = some r) :
    r.output_dir_arg = "" := by
  unfold scriptMain at hrun
  rw [if_neg (by simp [hcli])] at hrun
  unfold scriptTui at hrun
  cases hc : tuiCollect args env fs tuiFuel tuiIn with
  | none =>
    rw [hc] at hrun
    simp at hrun
  | some p =>
    rw [hc] at hrun
    dsimp only at hrun
    have hr : r = py_main p.tui_output_dir p.num_files_pb p.num_b p.name_l
        p.text_l p.tui_extensions_list p.workers_val p.op_delay_s_val true
        p.tui_use_random_4_char env fails rng fs :=
      ((Option.some.injEq _ _).mp hrun).symm
    rw [hr]
    show p.tui_output_dir = ""
    exact tuiCollect_output_dir args env fs tuiFuel tuiIn p hc

/-- C9 witness fixture: no CLI flags, so the TUI runs. -/
def argsW9 : Args :=
  { output_dir := none, num_files := 1000, num_batches := 10,
    name_length := 50, text_length := 10000, extensions := none,
    random_extensions := false, workers := none, delay := 0 }

/-- C9 witness fixture: a Linux host whose `/tmp` exists and is writable. -/
def envW9 : OsEnv :=
  { phomeexpand := fun _ => "/home/u/Downloads", writable := fun _ => true,
    cpu_count := some 8, os_type := "linux", pnormpath := fun s => s }

/-- C9 witness fixture: the filesystem seen by the session. -/
def fsW9 : FSState := { dirs := ["/tmp"], files := [] }

/-- C9 witness fixture: the user selects suggestion 1 (`/tmp`), then answers
5 files, 2 batches, name length 10, text length 10, extension mode 3, and
takes the defaults for workers and delay. -/
def inpW9 : Nat → String := fun n =>
  match n with
  | 0 => "1"
  | 1 => "5"
  | 2 => "2"
  | 3 => "10"
  | 4 => "10"
  | 5 => "3"
  | _ => ""

/-- C9 witness: the session validates `/tmp`, yet `main` receives `""`. -/
theorem C9_tui_output_dir_empty_witness :
    is_cli_mode argsW9 = false ∧
    (py_main "" 5 2 10 10 none none 0 true true envW9 (fun _ _ => false) rngId
      fsW9).output_dir_arg = "" :=
  ⟨rfl,
   C9_tui_output_dir_empty argsW9 envW9 1 inpW9 (fun _ _ => false) rngId fsW9
     (py_main "" 5 2 10 10 none none 0 true true envW9 (fun _ _ => false)
       rngId fsW9) rfl rfl⟩

/-- C8 fixture: task parameters drawing 2-character names, random
4-character extensions and no content. -/
def pC8 : TaskParams :=
  { output_dir := "out", name_len := 2, text_len := 0, delay_s := 0,
    extensions_list := none, use_random_4_char_ext := true }

/-- The generated name recorded in outcome `k` of a dispatch. -/
def outcomeName (l : List (Except String GenFileResult)) (k : Nat) : String :=
  match l.getD k (Except.error "") with
  | Except.ok r => r.random_name
  | Except.error _ => ""

/-- C8: the claim that tasks obtain independent randomness with no shared
mutable RNG state is FALSE of the code: every `np.random.choice` call in
`generate_file` (source lines 22, 25, 33, 39) draws from the single
module-global numpy RandomState, so a task's output depends on how many
draws its siblings have already consumed.  Concretely, task 1 of a
two-task batch produces a different name than the same task run alone from
the same initial RandomState. -/
theorem C8_shared_rng_couples_tasks :
    outcomeName (runTasks pC8 (fun _ => false) [0, 1] rngId fsOut).2.2 1
      ≠ outcomeName (runTasks pC8 (fun _ => false) [1] rngId fsOut).2.2 0 := by
  decide
